import Mathlib

/-!
Verification of the diagnostic engine of the AI-Powered-Exam-Digitizer
repository (`src/validator.py`).  The Python source is shallowly embedded:
each Python function becomes an executable Lean definition over `String`
and a `Json` value type; file access in `extract_first_latex_error` is
modelled by passing the file contents as values.  Character classes that
Python defines over full Unicode (`str.isalpha`, `str.strip`, the regex
word class) are modelled by their ASCII restrictions, which is exact on
all inputs appearing in the claims.

The two exception paths of the source are modelled explicitly alongside
the exception-free functions: `pyJsonLoadsCore` carries the recursion
limit at which the CPython scanner raises `RecursionError` (caught by the
`except Exception` branch of `validate_json_and_latex`), and
`validateSchemaE` propagates the uncaught `TypeError` raised by
`stype not in allowed_types` on an unhashable section `type`;
`validate_json_and_latexFull` is the pipeline with both paths visible.
-/

/-- Embedding of the `ValidationIssue` dataclass of `src/validator.py`
(severity, message, path, line, col, context). -/
structure ValidationIssue where
  severity : String
  message : String
  path : String
  line : Option Nat
  col : Option Nat
  context : Option String
deriving DecidableEq, Repr

/-- The apostrophe character, used when rebuilding Python `repr` output. -/
def sqChar : Char := Char.ofNat 39

/-- A one-character string holding an apostrophe. -/
def sqStr : String := String.singleton sqChar

/-- ASCII model of the whitespace set stripped by Python `str.strip()`. -/
def pyIsSpace (c : Char) : Bool :=
  c == ' ' || c == '\t' || c == '\n' || c == '\r' || c == Char.ofNat 11 || c == Char.ofNat 12

/-- Model of Python `str.lstrip()` (ASCII whitespace). -/
def pyLstrip (s : String) : String := String.mk (s.data.dropWhile pyIsSpace)

/-- Model of Python `str.rstrip()` (ASCII whitespace). -/
def pyRstrip (s : String) : String :=
  String.mk ((s.data.reverse.dropWhile pyIsSpace).reverse)

/-- Model of Python `str.strip()` (ASCII whitespace). -/
def pyStrip (s : String) : String := pyRstrip (pyLstrip s)

/-- Model of Python `str.startswith`. -/
def pyStartsWith (s t : String) : Bool := s.data.take t.data.length == t.data

/-- Model of Python `str.endswith`. -/
def pyEndsWith (s t : String) : Bool :=
  s.data.drop (s.data.length - t.data.length) == t.data && t.data.length ≤ s.data.length

/-- Model of Python `str.isalpha` on one character (ASCII restriction). -/
def pyIsAlpha (c : Char) : Bool := c.isAlpha

/-- Model of the regex word class `\w` on one character (ASCII restriction). -/
def isWordChar (c : Char) : Bool := c.isAlphanum || c == '_'

/-- Worker for `pySplitlines`: accumulates the current (reversed) line while
splitting on `\r\n`, `\n` and `\r` as Python `str.splitlines()` does for the
ASCII line boundaries. -/
def slGo : List Char → List Char → List String
  | cur, '\r' :: '\n' :: rest =>
      String.mk cur.reverse :: (if rest.isEmpty then [] else slGo [] rest)
  | cur, '\n' :: rest =>
      String.mk cur.reverse :: (if rest.isEmpty then [] else slGo [] rest)
  | cur, '\r' :: rest =>
      String.mk cur.reverse :: (if rest.isEmpty then [] else slGo [] rest)
  | cur, c :: rest => slGo (c :: cur) rest
  | cur, [] => [String.mk cur.reverse]

/-- Model of Python `str.splitlines()` restricted to the ASCII line
boundaries `\n`, `\r`, `\r\n`. -/
def pySplitlines (s : String) : List String :=
  if s.data.isEmpty then [] else slGo [] s.data

/-- Numeric value of a list of decimal digit characters. -/
def natFromDigits (l : List Char) : Nat :=
  l.foldl (fun acc c => 10 * acc + (c.toNat - 48)) 0

/-- Scanner state of `_find_suspicious_json_escapes`: the mutable
`in_string` / `escaped` / `line` / `col` variables of the `while` loop. -/
structure ScanState where
  inString : Bool
  escaped : Bool
  line : Nat
  col : Nat
deriving DecidableEq, Repr

/-- Initial scanner state (`in_string=False, escaped=False, line=1, col=0`). -/
def scanInit : ScanState := ⟨false, false, 1, 0⟩

/-- One iteration of the `_find_suspicious_json_escapes` loop, as a state
update on the character being processed (the update does not depend on the
lookahead characters, only the emitted warning does). -/
def scanStep (st : ScanState) (c : Char) : ScanState :=
  if c == '\n' then { st with line := st.line + 1, col := 0, escaped := false }
  else
    let st := { st with col := st.col + 1 }
    if !st.inString then { st with inString := c == '"' }
    else if st.escaped then { st with escaped := false }
    else if c == '\\' then { st with escaped := true }
    else if c == '"' then { st with inString := false }
    else st

/-- The set `escape_letters = {"b", "f", "n", "r", "t"}`. -/
def escLetter (c : Char) : Bool :=
  c == 'b' || c == 'f' || c == 'n' || c == 'r' || c == 't'

/-- The warning built by `_find_suspicious_json_escapes` for escape letter
`esc` followed by alphabetic character `nxt2`, at source position
`(line, col)`. -/
def escWarnIssue (line col : Nat) (esc nxt2 : Char) : ValidationIssue :=
  ⟨"warning",
    "疑似未双重转义：检测到 JSON 转义 \\" ++ String.singleton esc ++ String.singleton nxt2
      ++ "...；若想表示 LaTeX 命令，通常应写成 \\\\" ++ String.singleton esc
      ++ String.singleton nxt2 ++ "...",
    "", some line, some col, none⟩

/-- The emission test of the backslash branch of the scanner loop: current
char is a backslash seen inside a string and not itself escaped, next char
is one of the JSON escape letters, and the character after that is
alphabetic (`""` - i.e. a missing character - counts as non-alphabetic). -/
def scanEmit (st : ScanState) (c1 c2 : Char) (o3 : Option Char) : Bool :=
  st.inString && !st.escaped && c1 == '\\' && escLetter c2 && (o3.map pyIsAlpha).getD false

/-- Body of the `while i < len(raw) - 1` loop of
`_find_suspicious_json_escapes`, recursing over the character list with the
current scanner state; the loop stops when fewer than two characters
remain. -/
def scanAux : ScanState → List Char → List ValidationIssue
  | st, c1 :: c2 :: rest =>
      (if scanEmit st c1 c2 rest.head? then
        [escWarnIssue st.line (st.col + 1) c2 (rest.head?.getD 'A')]
      else []) ++ scanAux (scanStep st c1) (c2 :: rest)
  | _, _ => []

/-- Embedding of `_find_suspicious_json_escapes`. -/
def findSuspiciousJsonEscapes (raw : String) : List ValidationIssue :=
  scanAux scanInit raw.data

/-- Scanner state after processing `i` characters of `l`, starting from
state `st`. -/
def stateAtFrom (st : ScanState) (l : List Char) (i : Nat) : ScanState :=
  (l.take i).foldl scanStep st

/-- Position-indexed restatement of the emission test of the scanner: a warning
is emitted while processing position `i` exactly when this holds. -/
def emitAtFrom (st : ScanState) (l : List Char) (i : Nat) : Bool :=
  match l.get? i, l.get? (i + 1) with
  | some c1, some c2 => scanEmit (stateAtFrom st l i) c1 c2 (l.get? (i + 2))
  | _, _ => false

/-- The warning the scanner emits at position `i` (meaningful when
`emitAtFrom` holds there). -/
def warnAtFrom (st : ScanState) (l : List Char) (i : Nat) : ValidationIssue :=
  escWarnIssue (stateAtFrom st l i).line ((stateAtFrom st l i).col + 1)
    ((l.get? (i + 1)).getD 'A') ((l.get? (i + 2)).getD 'A')

/-- The generic JSON value tree produced by `json.loads`: Python dicts
become key/value lists in insertion order, and numbers are kept exactly as
a decimal mantissa/exponent pair `m * 10 ^ e` (the Python int/float split is
not needed by any check of the validator; IEEE specials `NaN`/`Infinity`
are outside this model). -/
inductive Json where
  | null : Json
  | bool (b : Bool) : Json
  | num (m : Int) (e : Int) : Json
  | str (s : String) : Json
  | arr (xs : List Json) : Json
  | obj (kvs : List (String × Json)) : Json

/-- Lookup in the key/value list of a parsed object, i.e. Python
`d.get(k)` with a missing key giving `none`. -/
def jget : List (String × Json) → String → Option Json
  | [], _ => none
  | (k0, v0) :: rest, k => if k0 = k then some v0 else jget rest k

/-- Python `k in d`. -/
def hasKey (kvs : List (String × Json)) (k : String) : Bool :=
  (jget kvs k).isSome

/-- Dict insertion as performed while parsing an object: a duplicate key
keeps its first position and takes the later value, as a Python dict
does. -/
def insertKV : List (String × Json) → String → Json → List (String × Json)
  | [], k, v => [(k, v)]
  | (k0, v0) :: rest, k, v =>
      if k0 = k then (k0, v) :: rest else (k0, v0) :: insertKV rest k v

/-- Python truthiness of a JSON value (`None`, `False`, zero, and empty
string/array/object are falsy). -/
def pyTruthy : Json → Bool
  | .null => false
  | .bool b => b
  | .num m _ => m != 0
  | .str s => !s.data.isEmpty
  | .arr [] => false
  | .arr (_ :: _) => true
  | .obj [] => false
  | .obj (_ :: _) => true

/-- Python truthiness of the result of a `.get` (a missing key is `None`,
hence falsy). -/
def pyTruthyOpt : Option Json → Bool
  | none => false
  | some v => pyTruthy v

/-- Whether a `.get` result is Python `None`: the key is missing or its
value is JSON `null` (which `json.loads` turns into `None`). -/
def pyIsNone : Option Json → Bool
  | none => true
  | some .null => true
  | _ => false

/-- A parse failure of the structural parser: the message and character
offset carried by `json.JSONDecodeError`. -/
structure JsonErr where
  msg : String
  pos : Nat
deriving DecidableEq, Repr

/-- The JSON whitespace class `[ \t\n\r]` of the `json` module. -/
def isJsonWs (c : Char) : Bool :=
  c == ' ' || c == '\t' || c == '\n' || c == '\r'

/-- Position after skipping JSON whitespace starting at `p`. -/
def jsonWs (s : List Char) (p : Nat) : Nat :=
  p + ((s.drop p).takeWhile isJsonWs).length

/-- Hex digit value of a character, if it is one. -/
def hexVal (c : Char) : Option Nat :=
  if c.isDigit then some (c.toNat - 48)
  else if 'a' ≤ c && c ≤ 'f' then some (c.toNat - 87)
  else if 'A' ≤ c && c ≤ 'F' then some (c.toNat - 55)
  else none

/-- Value of the four hex digits at `p`, if they are all hex digits. -/
def hex4 (s : List Char) (p : Nat) : Option Nat :=
  match (s.get? p).bind hexVal, (s.get? (p+1)).bind hexVal,
        (s.get? (p+2)).bind hexVal, (s.get? (p+3)).bind hexVal with
  | some a, some b, some c, some d => some (((a * 16 + b) * 16 + c) * 16 + d)
  | _, _, _, _ => none

/-- A unicode scalar from a decoded `\uXXXX` value; lone surrogates (which
Python keeps in its strings but Lean cannot represent) degrade to U+FFFD. -/
def charFromCode (n : Nat) : Char :=
  if h : n < 0xd800 ∨ (0xdfff < n ∧ n < 0x110000) then
    Char.ofNatAux n (by
      rcases h with h | h
      · exact Or.inl (by omega)
      · exact Or.inr (by omega))
  else Char.ofNat 0xfffd

/-- Worker of the string scanner `py_scanstring`: `begin` is the offset of
the opening quote (used by the unterminated-string error), `p` the current
offset, `acc` the contents decoded so far; returns the string and the
offset one past the closing quote. -/
def parseJStringF : Nat → List Char → Nat → Nat → String →
    Except JsonErr (String × Nat)
  | 0, _, beginPos, _, _ => .error ⟨"Unterminated string starting at", beginPos⟩
  | fuel + 1, s, beginPos, p, acc =>
    match s.get? p with
    | none => .error ⟨"Unterminated string starting at", beginPos⟩
    | some '"' => .ok (acc, p + 1)
    | some '\\' =>
      match s.get? (p + 1) with
      | none => .error ⟨"Unterminated string starting at", beginPos⟩
      | some 'u' =>
        match hex4 s (p + 2) with
        | none => .error ⟨"Invalid \\uXXXX escape", p + 2⟩
        | some n =>
          if 0xd800 ≤ n ∧ n ≤ 0xdbff then
            match s.get? (p + 6), s.get? (p + 7), hex4 s (p + 8) with
            | some '\\', some 'u', some n2 =>
              if 0xdc00 ≤ n2 ∧ n2 ≤ 0xdfff then
                parseJStringF fuel s beginPos (p + 12)
                  (acc.push (charFromCode (0x10000 + (n - 0xd800) * 0x400 + (n2 - 0xdc00))))
              else
                parseJStringF fuel s beginPos (p + 6) (acc.push (charFromCode n))
            | _, _, _ =>
              parseJStringF fuel s beginPos (p + 6) (acc.push (charFromCode n))
          else
            parseJStringF fuel s beginPos (p + 6) (acc.push (charFromCode n))
      | some e =>
        let dec : Option Char :=
          if e == '"' then some '"'
          else if e == '\\' then some '\\'
          else if e == '/' then some '/'
          else if e == 'b' then some (Char.ofNat 8)
          else if e == 'f' then some (Char.ofNat 12)
          else if e == 'n' then some '\n'
          else if e == 'r' then some '\r'
          else if e == 't' then some '\t'
          else none
        match dec with
        | some c => parseJStringF fuel s beginPos (p + 2) (acc.push c)
        | none => .error ⟨"Invalid \\escape", p + 1⟩
    | some c =>
      if c.toNat < 32 then .error ⟨"Invalid control character at", p⟩
      else parseJStringF fuel s beginPos (p + 1) (acc.push c)

/-- `py_scanstring`: decode the string literal whose opening quote sits at
offset `p`. -/
def parseJString (s : List Char) (p : Nat) : Except JsonErr (String × Nat) :=
  parseJStringF (s.length + 1) s p (p + 1) ""

/-- The number grammar `(-?(0|[1-9]\d*))(\.\d+)?([eE][-+]?\d+)?` of the
`json` module, anchored at `p`; returns the decimal mantissa/exponent and
the end offset, or the module "Expecting value" failure at `p`. -/
def parseJNumber (s : List Char) (p : Nat) : Except JsonErr (Json × Nat) :=
  let neg := s.get? p == some '-'
  let p1 := if neg then p + 1 else p
  let intDigits := (s.drop p1).takeWhile Char.isDigit
  if intDigits.isEmpty then .error ⟨"Expecting value", p⟩
  else
    -- `0|[1-9]\d*`: a leading zero ends the integer part immediately.
    let intPart := if intDigits.head? == some '0' then ['0'] else intDigits
    let p2 := p1 + intPart.length
    let fracDigits :=
      if s.get? p2 == some '.' then (s.drop (p2 + 1)).takeWhile Char.isDigit
      else []
    let p3 := if fracDigits.isEmpty then p2 else p2 + 1 + fracDigits.length
    let hasExpChar := s.get? p3 == some 'e' || s.get? p3 == some 'E'
    let expSignLen : Nat :=
      if s.get? (p3 + 1) == some '+' || s.get? (p3 + 1) == some '-' then 1 else 0
    let expDigits :=
      if hasExpChar then (s.drop (p3 + 1 + expSignLen)).takeWhile Char.isDigit
      else []
    let p4 := if expDigits.isEmpty then p3 else p3 + 1 + expSignLen + expDigits.length
    let expNeg := s.get? (p3 + 1) == some '-'
    let mantNat : Nat := natFromDigits intPart * 10 ^ fracDigits.length
        + natFromDigits fracDigits
    let mant : Int := if neg then -(mantNat : Int) else (mantNat : Int)
    let expVal : Int :=
      if expDigits.isEmpty then 0
      else if expNeg then -(natFromDigits expDigits : Int)
      else (natFromDigits expDigits : Int)
    .ok (.num mant (expVal - (fracDigits.length : Int)), p4)

/-- Parsing mode of the fuel-indexed scanner: a single value, the items of
an array after `[`, or the members of an object positioned at a key. -/
inductive PMode where
  | value : PMode
  | arrItems (acc : List Json) : PMode
  | objItems (acc : List (String × Json)) : PMode

/-- Failure of the embedded `json.loads`: either a located decode error
(`json.JSONDecodeError`) or the `RecursionError` that the CPython scanner
raises when container nesting exceeds the runtime recursion limit. -/
inductive JsonFailure where
  | decode (e : JsonErr) : JsonFailure
  | recursion : JsonFailure
deriving DecidableEq, Repr

/-- Whether entering one more container would exceed the recursion limit
(`Py_EnterRecursiveCall` failing inside the C scanner); `none` means the
limit is never reached. -/
def atRecursionLimit (rlimit : Option Nat) (depth : Nat) : Bool :=
  match rlimit with
  | some l => decide (l ≤ depth)
  | none => false

/-- The recursive scanner of the `json` module (`_scan_once` together with
the array/object loops of `JSONArray`/`JSONObject`), fuel-indexed so that
the recursion is structural; the fuel provided by the entry points can
never run out because every recursive call advances the offset.  `depth`
counts the nesting of containers being decoded: entering a `[` or `{` at
the recursion limit raises `RecursionError`, as the CPython scanner
does. -/
def parseF (rlimit : Option Nat) : Nat → PMode → List Char → Nat → Nat →
    Except JsonFailure (Json × Nat)
  | 0, _, _, p, _ => .error (.decode ⟨"Expecting value", p⟩)
  | fuel + 1, .value, s, p, depth =>
    match s.get? p with
    | none => .error (.decode ⟨"Expecting value", p⟩)
    | some '"' => do
        let (str, p1) ← (parseJString s p).mapError JsonFailure.decode
        .ok (.str str, p1)
    | some '{' =>
        if atRecursionLimit rlimit depth then .error .recursion
        else
          let p1 := jsonWs s (p + 1)
          if s.get? p1 == some '}' then .ok (.obj [], p1 + 1)
          else if s.get? p1 == some '"' then
            parseF rlimit fuel (.objItems []) s p1 (depth + 1)
          else .error (.decode ⟨"Expecting property name enclosed in double quotes", p1⟩)
    | some '[' =>
        if atRecursionLimit rlimit depth then .error .recursion
        else
          let p1 := jsonWs s (p + 1)
          if s.get? p1 == some ']' then .ok (.arr [], p1 + 1)
          else parseF rlimit fuel (.arrItems []) s p1 (depth + 1)
    | some 't' =>
        if (s.drop p).take 4 = ['t', 'r', 'u', 'e'] then .ok (.bool true, p + 4)
        else .error (.decode ⟨"Expecting value", p⟩)
    | some 'f' =>
        if (s.drop p).take 5 = ['f', 'a', 'l', 's', 'e'] then .ok (.bool false, p + 5)
        else .error (.decode ⟨"Expecting value", p⟩)
    | some 'n' =>
        if (s.drop p).take 4 = ['n', 'u', 'l', 'l'] then .ok (.null, p + 4)
        else .error (.decode ⟨"Expecting value", p⟩)
    | some _ => (parseJNumber s p).mapError JsonFailure.decode
  | fuel + 1, .arrItems acc, s, p, depth => do
      let (v, p1) ← parseF rlimit fuel .value s p depth
      let p2 := jsonWs s p1
      match s.get? p2 with
      | some ']' => .ok (.arr (acc ++ [v]), p2 + 1)
      | some ',' => parseF rlimit fuel (.arrItems (acc ++ [v])) s (jsonWs s (p2 + 1)) depth
      | _ => .error (.decode ⟨"Expecting " ++ sqStr ++ "," ++ sqStr ++ " delimiter", p2⟩)
  | fuel + 1, .objItems acc, s, p, depth => do
      let (key, p1) ← (parseJString s p).mapError JsonFailure.decode
      let p2 := jsonWs s p1
      if s.get? p2 != some ':' then
        .error (.decode ⟨"Expecting " ++ sqStr ++ ":" ++ sqStr ++ " delimiter", p2⟩)
      else
        let (v, p3) ← parseF rlimit fuel .value s (jsonWs s (p2 + 1)) depth
        let acc1 := insertKV acc key v
        let p4 := jsonWs s p3
        match s.get? p4 with
        | some '}' => .ok (.obj acc1, p4 + 1)
        | some ',' =>
            let p5 := jsonWs s (p4 + 1)
            if s.get? p5 == some '"' then parseF rlimit fuel (.objItems acc1) s p5 depth
            else .error (.decode ⟨"Expecting property name enclosed in double quotes", p5⟩)
        | _ => .error (.decode ⟨"Expecting " ++ sqStr ++ "," ++ sqStr ++ " delimiter", p4⟩)

/-- `json.loads` with the recursion limit explicit: decode one value
surrounded by optional whitespace and reject trailing input with the
module "Extra data" failure. -/
def pyJsonLoadsCore (rlimit : Option Nat) (raw : String) : Except JsonFailure Json := do
  let s := raw.data
  let (v, p) ← parseF rlimit (s.length + 2) .value s (jsonWs s 0) 0
  let p1 := jsonWs s p
  if p1 = s.length then .ok v else .error (.decode ⟨"Extra data", p1⟩)

/-- Embedding of `json.loads` on the non-crashing path: no recursion
limit is imposed, so the `recursion` branch below is dead code and the
outcome is a decode error or a value. -/
def pyJsonLoads (raw : String) : Except JsonErr Json :=
  match pyJsonLoadsCore none raw with
  | .ok v => .ok v
  | .error (.decode e) => .error e
  | .error .recursion => .error ⟨"RecursionError", 0⟩

/-- `lineno`/`colno` of `json.JSONDecodeError`: one plus the number of
newlines before `pos`, and the distance to the last newline before `pos`
(or to the start of the document). -/
def errLineCol (raw : String) (pos : Nat) : Nat × Nat :=
  let pref := raw.data.take pos
  let line := pref.count '\n' + 1
  let col :=
    match pref.reverse.findIdx? (· == '\n') with
    | none => pos + 1
    | some k => k + 1
  (line, col)

/-- Embedding of `_json_decode_issue`: the single error diagnostic built
from a parse failure, with the offending line plus a caret as context. -/
def jsonDecodeIssue (raw : String) (e : JsonErr) : ValidationIssue :=
  let lc := errLineCol raw e.pos
  let rawLines := pySplitlines raw
  let context :=
    if 1 ≤ lc.1 ∧ lc.1 ≤ rawLines.length then
      let badLine := rawLines.getD (lc.1 - 1) ""
      let caret := String.mk (List.replicate (lc.2 - 1) ' ') ++ "^"
      some (badLine ++ "\n" ++ caret)
    else none
  ⟨"error", "JSON 格式错误：" ++ e.msg, "", some lc.1, some lc.2, context⟩

/-- First `l.<digits>` token of a line, as matched by `re.search(r"l\.(\d+)", line)`. -/
def reLSearch (l : List Char) : Option Nat :=
  match l with
  | 'l' :: rest =>
      match rest with
      | '.' :: d :: r2 =>
          if d.isDigit then some (natFromDigits (d :: r2.takeWhile Char.isDigit))
          else reLSearch rest
      | _ => reLSearch rest
  | _ :: rest => reLSearch rest
  | [] => none

/-- Embedding of `extract_first_latex_error`.  The two file reads of the
Python function are modelled by passing the log text and the (optional,
when the `.tex` file exists and is readable) source text as values. -/
def extract_first_latex_error (logText : String) (texText : Option String) :
    Option ValidationIssue :=
  let logLines := pySplitlines logText
  match logLines.findIdx? (fun l => pyStartsWith (pyLstrip l) "!") with
  | none => none
  | some errIdx =>
    let errLine := pyLstrip (logLines.getD errIdx "")
    let errMsg :=
      if pyStartsWith errLine "!" then pyStrip (errLine.drop 1) else pyStrip errLine
    let lineNo := ((logLines.drop errIdx).take 20).findSome? (fun l => reLSearch l.data)
    let texSnippet : Option String :=
      match lineNo, texText with
      | some n, some t =>
          let texLines := pySplitlines t
          if 1 ≤ n ∧ n ≤ texLines.length then some (pyRstrip (texLines.getD (n - 1) ""))
          else none
      | _, _ => none
    let context : Option String :=
      match lineNo, texSnippet with
      | some n, some snip => some ("TeX 行 " ++ Nat.repr n ++ ":\n" ++ snip)
      | _, _ => none
    some ⟨"error",
      errMsg ++ (match lineNo with
        | some n => "（l." ++ Nat.repr n ++ "）"
        | none => ""),
      "LaTeX", none, none, context⟩

/-- Simplified Python `repr` of a `.get` result, used only inside the
section-`type` warning message (`{stype!r}` in the source); composite
values are abbreviated, which no claim observes. -/
def pyReprOpt : Option Json → String
  | none => "None"
  | some .null => "None"
  | some (.bool true) => "True"
  | some (.bool false) => "False"
  | some (.str s) => sqStr ++ s ++ sqStr
  | some (.num m e) =>
      if e == 0 then toString m else toString m ++ "e" ++ toString e
  | some (.arr _) => "[...]"
  | some (.obj _) => "\x7b...\x7d"

/-- The `sorted(allowed_types)` literal of the section-`type` warning. -/
def allowedTypesRepr : String :=
  "[" ++ sqStr ++ "fill" ++ sqStr ++ ", " ++ sqStr ++ "multiple_choice" ++ sqStr
    ++ ", " ++ sqStr ++ "problem" ++ sqStr ++ ", " ++ sqStr ++ "single_choice" ++ sqStr ++ "]"

/-- `type` value test against `allowed_types = {"single_choice",
"multiple_choice", "fill", "problem"}`. -/
def isAllowedType (stype : Option Json) : Bool :=
  match stype with
  | some (.str t) =>
      t == "single_choice" || t == "multiple_choice" || t == "fill" || t == "problem"
  | _ => false

/-- `stype in {"single_choice", "multiple_choice"}`. -/
def isChoiceType (stype : Option Json) : Bool :=
  match stype with
  | some (.str t) => t == "single_choice" || t == "multiple_choice"
  | _ => false

/-- The issues emitted for one question object (dataclass fields of the
inner loop of `_validate_schema`). -/
def questionIssues (qpath : String) (stype : Option Json) (q : Json) :
    List ValidationIssue :=
  match q with
  | .obj qm =>
    (if hasKey qm "content" then []
     else [⟨"warning", "缺少 content", qpath ++ ".content", none, none, none⟩])
    ++ (if isChoiceType stype then
          match jget qm "options" with
          | some (.arr (_ :: _)) => []
          | _ => [⟨"error", "选择题需要 options 数组，且不能为空",
                    qpath ++ ".options", none, none, none⟩]
        else [])
    ++ (let fig := jget qm "figure"
        (if pyIsNone fig then []
         else match fig with
           | some (.obj _) => []
           | _ => [⟨"warning", "figure 建议为对象或 null", qpath ++ ".figure",
                     none, none, none⟩])
        ++ (match fig with
            | some (.obj fm) =>
                if (match jget fm "type" with
                    | some (.str t) => t == "tikz"
                    | _ => false) then
                  match jget fm "code" with
                  | some (.str _) => []
                  | _ => [⟨"warning", "tikz figure 需要字符串 code",
                            qpath ++ ".figure.code", none, none, none⟩]
                else []
            | _ => []))
    ++ (let img := jget qm "image"
        (if pyIsNone img then []
         else match img with
           | some (.obj _) => []
           | some (.bool _) => []
           | some (.str _) => []
           | _ => [⟨"warning", "image 建议为对象、布尔或字符串", qpath ++ ".image",
                     none, none, none⟩])
        ++ (match img with
            | some (.obj im) =>
                (if hasKey im "width" then
                   match jget im "width" with
                   | some (.str _) => []
                   | _ => [⟨"warning", "image.width 建议为字符串",
                             qpath ++ ".image.width", none, none, none⟩]
                 else [])
                ++ (if hasKey im "height" then
                      match jget im "height" with
                      | some (.str _) => []
                      | _ => [⟨"warning", "image.height 建议为字符串",
                                qpath ++ ".image.height", none, none, none⟩]
                    else [])
            | _ => []))
  | _ => [⟨"error", "question 必须是对象", qpath, none, none, none⟩]

/-- The `for qi, q in enumerate(qs)` loop. -/
def questionLoop (spath : String) (stype : Option Json) :
    Nat → List Json → List ValidationIssue
  | _, [] => []
  | qi, q :: rest =>
      questionIssues (spath ++ (".questions[" ++ (Nat.repr qi ++ "]"))) stype q
        ++ questionLoop spath stype (qi + 1) rest

/-- The issues emitted for one section. -/
def sectionIssues (si : Nat) (sec : Json) : List ValidationIssue :=
  let spath := "sections[" ++ (Nat.repr si ++ "]")
  match sec with
  | .obj sm =>
    let stype := jget sm "type"
    (if isAllowedType stype then []
     else [⟨"warning",
             "type 建议为 " ++ allowedTypesRepr ++ " 之一（当前：" ++ pyReprOpt stype ++ "）",
             spath ++ ".type", none, none, none⟩])
    ++ (match jget sm "questions" with
        | some (.arr qs) => questionLoop spath stype 0 qs
        | _ => [⟨"error", "questions 必须是数组", spath ++ ".questions", none, none, none⟩])
  | _ => [⟨"error", "section 必须是对象", spath, none, none, none⟩]

/-- The `for si, section in enumerate(sections)` loop. -/
def sectionLoop : Nat → List Json → List ValidationIssue
  | _, [] => []
  | si, sec :: rest => sectionIssues si sec ++ sectionLoop (si + 1) rest

/-- The `meta` block of `_validate_schema`. -/
def metaIssues (d : List (String × Json)) : List ValidationIssue :=
  match jget d "meta" with
  | some (.obj m) =>
      (if pyTruthyOpt (jget m "title") then []
       else [⟨"warning", "缺少 title（标题）", "meta.title", none, none, none⟩])
      ++ (if pyTruthyOpt (jget m "subject") then []
          else [⟨"warning", "缺少 subject（科目）", "meta.subject", none, none, none⟩])
  | _ => [⟨"warning", "建议提供 meta 对象（title/subject 等），否则文件名自动提取可能失败",
            "meta", none, none, none⟩]

/-- The `sections` block of `_validate_schema` (everything after the meta
block; a non-array `sections` stops the walk with a single error). -/
def sectionsIssues (d : List (String × Json)) : List ValidationIssue :=
  match jget d "sections" with
  | some (.arr xs) => sectionLoop 0 xs
  | _ => [⟨"error", "sections 必须是数组", "sections", none, none, none⟩]

/-- Embedding of `_validate_schema`. -/
def validateSchema (data : Json) : List ValidationIssue :=
  match data with
  | .obj d => metaIssues d ++ sectionsIssues d
  | _ => [⟨"error", "顶层必须是 JSON 对象（\x7b...\x7d）", "", none, none, none⟩]

/-- The left brace character (written by code point to keep it out of
string literals). -/
def lbrace : Char := Char.ofNat 123

/-- The right brace character. -/
def rbrace : Char := Char.ofNat 125

/-- One-character string holding a left brace. -/
def lbraceStr : String := String.singleton lbrace

/-- One-character string holding a right brace. -/
def rbraceStr : String := String.singleton rbrace

/-- Python `pat in s` on character lists. -/
def hasSubstr (pat : List Char) : List Char → Bool
  | [] => pat.isEmpty
  | x :: rest => (List.take pat.length (x :: rest) == pat) || hasSubstr pat rest

/-- Occurrence count of `re.findall(r"(?<!\\)\$", s)`: dollars whose
preceding character is not a backslash. -/
def countUnescapedDollarAux : Option Char → List Char → Nat
  | _, [] => 0
  | prev, c :: rest =>
      (if c == '$' && prev != some '\\' then 1 else 0)
        + countUnescapedDollarAux (some c) rest

/-- Number of unescaped `$` characters of a string. -/
def countUnescapedDollar (l : List Char) : Nat := countUnescapedDollarAux none l

/-- `re.search(r"(?<!\\)\$\$", s)`: some dollar not preceded by a backslash
is immediately followed by another dollar. -/
def hasUnescaped2Dollar : Option Char → List Char → Bool
  | _, [] => false
  | prev, c :: rest =>
      (c == '$' && prev != some '\\' && rest.head? == some '$')
        || hasUnescaped2Dollar (some c) rest

/-- `re.search(rf"(?<!\\){ch}", s)`: an occurrence of `ch` not preceded by
a backslash. -/
def hasUnescaped (ch : Char) : Option Char → List Char → Bool
  | _, [] => false
  | prev, c :: rest =>
      (c == ch && prev != some '\\') || hasUnescaped ch (some c) rest

/-- Count of the word-boundary-terminated tokens found by
`re.findall(r"\\left\b", s)` / `re.findall(r"\\right\b", s)`: occurrences
of `tok` whose following character, if any, is not a word character,
scanning left to right and resuming after each match. -/
def countTokenB (tok : List Char) : Nat → List Char → Nat
  | 0, _ => 0
  | fuel + 1, l =>
      if (List.take tok.length l == tok)
          && (match (List.drop tok.length l).head? with
              | some c => !isWordChar c
              | none => true) then
        1 + countTokenB tok fuel (List.drop tok.length l)
      else
        match l with
        | [] => 0
        | _ :: r => countTokenB tok fuel r

/-- Close search for the `$$` pass: the earliest `$$` whose first dollar is
not preceded by a backslash (`prev` is the character just before the head
of `l` in the subject string); returns the suffix after the closing
delimiter. -/
def findClose2 : Char → List Char → Option (List Char)
  | prev, c :: rest =>
      if c = '$' ∧ prev ≠ '\\' ∧ rest.head? = some '$' then some rest.tail
      else findClose2 c rest
  | _, [] => none

/-- Close search for the `$` pass. -/
def findClose1 : Char → List Char → Option (List Char)
  | prev, c :: rest =>
      if c = '$' ∧ prev ≠ '\\' then some rest
      else findClose1 c rest
  | _, [] => none

/-- Close search for the `\(...\)` / `\[...\]` passes: the earliest
backslash-`c` pair. -/
def findClosePair (cl : Char) : List Char → Option (List Char)
  | c :: rest =>
      if c = '\\' ∧ rest.head? = some cl then some rest.tail
      else findClosePair cl rest
  | [] => none

/-- `re.sub(r"(?<!\\)\$\$.*?(?<!\\)\$\$", "", s, flags=re.DOTALL)`:
left-to-right, non-overlapping, non-greedy removal of `$$...$$` spans whose
delimiters are unescaped; a candidate opener without a closer is kept and
scanning resumes one character later, as the regex engine does. -/
def subDD : Nat → Option Char → List Char → List Char
  | 0, _, l => l
  | _ + 1, _, [] => []
  | fuel + 1, prev, c :: rest =>
      if prev ≠ some '\\' ∧ c = '$' ∧ rest.head? = some '$' then
        match findClose2 '$' rest.tail with
        | some rem => subDD fuel (some '$') rem
        | none => c :: subDD fuel (some c) rest
      else c :: subDD fuel (some c) rest

/-- `re.sub(r"(?<!\\)\$.*?(?<!\\)\$", "", s, flags=re.DOTALL)`. -/
def subD : Nat → Option Char → List Char → List Char
  | 0, _, l => l
  | _ + 1, _, [] => []
  | fuel + 1, prev, c :: rest =>
      if prev ≠ some '\\' ∧ c = '$' then
        match findClose1 '$' rest with
        | some rem => subD fuel (some '$') rem
        | none => c :: subD fuel (some c) rest
      else c :: subD fuel (some c) rest

/-- `re.sub` for the two literal bracketed math patterns
(`\\\(.*?\\\)` with `op='('`, `cl=')'`, and `\\\[.*?\\\]` with brackets). -/
def subBk (op cl : Char) : Nat → List Char → List Char
  | 0, l => l
  | _ + 1, [] => []
  | fuel + 1, c :: rest =>
      if c = '\\' ∧ rest.head? = some op then
        match findClosePair cl rest.tail with
        | some rem => subBk op cl fuel rem
        | none => c :: subBk op cl fuel rest
      else c :: subBk op cl fuel rest

/-- Embedding of `_strip_math_segments`: the four substitution passes in
the order of the `patterns` list. -/
def stripMathSegments (s : String) : String :=
  let l1 := subDD (s.data.length + 1) none s.data
  let l2 := subD (l1.length + 1) none l1
  let l3 := subBk '(' ')' (l2.length + 1) l2
  let l4 := subBk '[' ']' (l3.length + 1) l3
  String.mk l4

/-- Python `s.replace(pat, "")` for a non-empty pattern. -/
def pyReplace (pat : List Char) : Nat → List Char → List Char
  | 0, l => l
  | _ + 1, [] => []
  | fuel + 1, x :: rest =>
      if List.take pat.length (x :: rest) = pat then
        pyReplace pat fuel (List.drop pat.length (x :: rest))
      else x :: pyReplace pat fuel rest

/-- The token scan of `re.finditer(r"\\begin\{([^}]+)\}", s)` (and the
`end` variant): at each offset, match the literal token `tok`, then at
least one non-`}` character, then `}`; on success record the match start
and the captured name and resume after the match, otherwise advance one
character. -/
def findEnvTok (tok : List Char) : Nat → Nat → List Char → List (Nat × String)
  | 0, _, _ => []
  | fuel + 1, i, l =>
      if List.take tok.length l = tok then
        let after := List.drop tok.length l
        let name := after.takeWhile (· ≠ rbrace)
        if ¬name.isEmpty ∧ (after.drop name.length).head? = some rbrace then
          (i, String.mk name)
            :: findEnvTok tok fuel (i + tok.length + name.length + 1)
                (after.drop (name.length + 1))
        else
          match l with
          | [] => []
          | _ :: r => findEnvTok tok fuel (i + 1) r
      else
        match l with
        | [] => []
        | _ :: r => findEnvTok tok fuel (i + 1) r

/-- The literal token `\begin{`. -/
def beginTok : List Char := ['\\', 'b', 'e', 'g', 'i', 'n', lbrace]

/-- The literal token `\end{`. -/
def endTok : List Char := ['\\', 'e', 'n', 'd', lbrace]

/-- `tokens.sort(key=lambda x: x[0])` on the concatenation of the two
independently scanned match lists, realised as a merge of the two
position-sorted lists (`true` marks a begin token). -/
def mergeTok : Nat → List (Nat × String) → List (Nat × String) →
    List (Nat × Bool × String)
  | 0, _, _ => []
  | _ + 1, [], es => es.map (fun e => (e.1, false, e.2))
  | _ + 1, b :: bs, [] => (b.1, true, b.2) :: (bs.map (fun x => (x.1, true, x.2)))
  | fuel + 1, b :: bs, e :: es =>
      if b.1 ≤ e.1 then (b.1, true, b.2) :: mergeTok fuel bs (e :: es)
      else (e.1, false, e.2) :: mergeTok fuel (b :: bs) es

/-- The warning for an environment never closed. -/
def unclosedEnvIssue (path name : String) : ValidationIssue :=
  ⟨"warning", "检测到 \\begin" ++ lbraceStr ++ name ++ rbraceStr ++ " 但缺少对应的 \\end",
    path, none, none, none⟩

/-- The warning for an `end` without a matching `begin`. -/
def endNoBeginIssue (path name : String) : ValidationIssue :=
  ⟨"warning", "检测到 \\end" ++ lbraceStr ++ name ++ rbraceStr ++ " 但缺少对应的 \\begin",
    path, none, none, none⟩

/-- The warning for a mismatched environment pair. -/
def mismatchEnvIssue (path top name : String) : ValidationIssue :=
  ⟨"warning",
    "环境不匹配：\\begin" ++ lbraceStr ++ top ++ rbraceStr ++ " ... \\end"
      ++ lbraceStr ++ name ++ rbraceStr,
    path, none, none, none⟩

/-- The stack replay of `_check_env_balance`: push on begin, pop and
compare on end; the stack is kept top-first, so the trailing
`for name in reversed(stack)` loop is the plain map over the leftover
stack. -/
def envReplay (path : String) : List String → List (Nat × Bool × String) →
    List ValidationIssue
  | stack, [] => stack.map (unclosedEnvIssue path)
  | stack, (_, true, name) :: ts => envReplay path (name :: stack) ts
  | [], (_, false, name) :: ts => endNoBeginIssue path name :: envReplay path [] ts
  | top :: st, (_, false, name) :: ts =>
      (if top ≠ name then [mismatchEnvIssue path top name] else [])
        ++ envReplay path st ts

/-- Embedding of `_check_env_balance`. -/
def checkEnvBalance (s : String) (path : String) : List ValidationIssue :=
  let begins := findEnvTok beginTok (s.data.length + 1) 0 s.data
  let ends := findEnvTok endTok (s.data.length + 1) 0 s.data
  if begins.isEmpty ∧ ends.isEmpty then []
  else envReplay path [] (mergeTok (begins.length + ends.length + 1) begins ends)

/-- Python `repr` of a control character below 32 other than
newline/carriage-return/tab (always the `\xNN` form). -/
def pyReprControl (c : Char) : String :=
  sqStr ++ "\\x" ++ String.singleton (Nat.digitChar (c.toNat / 16))
    ++ String.singleton (Nat.digitChar (c.toNat % 16)) ++ sqStr

/-- The message of the math-delimiter-parity error. -/
def parityMsg : String := "检测到未成对的 $（数学模式可能未闭合）"

/-- The `(ch, desc)` list of the unescaped-special-character scan. -/
def specialChars : List (Char × String) :=
  [('%', "可能会注释后续内容"), ('&', "表格对齐符"), ('#', "参数符"), ('_', "下标符")]

/-- The battery of checks of `_validate_latex_string` after the skip test:
control characters, literal `\n`, dollar parity, `$$`, brace counts,
`\left`/`\right` counts, environment balance, and unescaped specials
outside math segments. -/
def latexChecks (s : String) (path : String) : List ValidationIssue :=
  let bad := s.data.filter (fun c => c.toNat < 32 && c != '\n' && c != '\r' && c != '\t')
  (if bad.isEmpty then []
   else
     [⟨"error",
        "检测到控制字符 "
          ++ (String.intercalate " " ((bad.take 5).map pyReprControl)
              ++ "（疑似 JSON 中反斜杠未写成 \\\\，例如 \\\\frac / \\\\begin）"),
        path, none, none, none⟩])
  ++ (if hasSubstr ['\\', 'n'] s.data then
        [⟨"error", "检测到 \\n 字符串，请移除", path, none, none, none⟩]
      else [])
  ++ (if countUnescapedDollar s.data % 2 = 1 then
        [⟨"error", parityMsg, path, none, none, none⟩]
      else [])
  ++ (if hasUnescaped2Dollar none s.data then
        [⟨"warning", "检测到 $$...$$（部分模板/环境不友好，建议改用 $...$ 或 \\\\[...\\\\]）",
           path, none, none, none⟩]
      else [])
  ++ (if s.data.count lbrace ≠ s.data.count rbrace then
        [⟨"warning",
           "检测到 " ++ lbraceStr ++ " " ++ rbraceStr ++ " 数量不一致（可能存在括号未闭合）",
           path, none, none, none⟩]
      else [])
  ++ (if countTokenB ['\\', 'l', 'e', 'f', 't'] (s.data.length + 1) s.data
        ≠ countTokenB ['\\', 'r', 'i', 'g', 'h', 't'] (s.data.length + 1) s.data then
        [⟨"warning", "检测到 \\left 与 \\right 数量不一致", path, none, none, none⟩]
      else [])
  ++ checkEnvBalance s path
  ++ (let stripped := (stripMathSegments s).data
      let nonMath := pyReplace "__BLANK__".data (stripped.length + 1) stripped
      specialChars.flatMap (fun cd =>
        if hasUnescaped cd.1 none nonMath then
          [⟨"warning", "检测到未转义的 " ++ String.singleton cd.1 ++ "（" ++ cd.2 ++ "）",
             path, none, none, none⟩]
        else []))

/-- Embedding of `_validate_latex_string`: markup checks are skipped for
paths ending in `.type` or `.id`. -/
def validateLatexString (s : String) (path : String) : List ValidationIssue :=
  if pyEndsWith path ".type" || pyEndsWith path ".id" then []
  else latexChecks s path

mutual

/-- Worker of `_iter_strings`: every string leaf of the tree paired with
its dotted/bracketed structural path. -/
def iterStringsAt (path : String) : Json → List (String × String)
  | .str s => [(path, s)]
  | .obj kvs => iterStringsObj path kvs
  | .arr xs => iterStringsArr path 0 xs
  | .null => []
  | .bool _ => []
  | .num _ _ => []

/-- The `for k, v in obj.items()` branch of `_iter_strings` (the path of a
top-level key has no leading dot). -/
def iterStringsObj (path : String) : List (String × Json) → List (String × String)
  | [] => []
  | (k, v) :: rest =>
      iterStringsAt (if path.isEmpty then k else path ++ ("." ++ k)) v
        ++ iterStringsObj path rest

/-- The `for i, v in enumerate(obj)` branch of `_iter_strings`. -/
def iterStringsArr (path : String) (i : Nat) : List Json → List (String × String)
  | [] => []
  | v :: rest =>
      iterStringsAt (path ++ ("[" ++ (Nat.repr i ++ "]"))) v
        ++ iterStringsArr path (i + 1) rest

end

/-- Embedding of `_iter_strings` applied at the root. -/
def iterStrings (j : Json) : List (String × String) := iterStringsAt "" j

/-- Embedding of `_validate_all_strings`. -/
def validateAllStrings (data : Json) : List ValidationIssue :=
  (iterStrings data).flatMap (fun ps => validateLatexString ps.2 ps.1)

/-- Embedding of `validate_json_and_latex`, the pipeline entry point:
empty text short-circuits; the escape scan runs on the raw text; a parse
failure appends one decode error and stops; otherwise the schema walk and
the per-string markup checks run. -/
def validate_json_and_latex (raw : String) :
    Option Json × List ValidationIssue :=
  if raw = "" then (none, [])
  else
    let issues := findSuspiciousJsonEscapes raw
    match pyJsonLoads raw with
    | .error e => (none, issues ++ [jsonDecodeIssue raw e])
    | .ok data => (some data, issues ++ (validateSchema data ++ validateAllStrings data))

/-- Python `x in someset` raises `TypeError` when `x` is unhashable;
among the values `json.loads` produces, the unhashable ones are arrays
and objects (Python lists and dicts). -/
def stypeUnhashable : Option Json → Bool
  | some (.arr _) => true
  | some (.obj _) => true
  | _ => false

/-- The uncaught exception of the schema walk: `stype not in
allowed_types` (validator.py line 207) raising `TypeError` on an
unhashable section `type` value. -/
inductive SchemaTypeError where
  | unhashableType : SchemaTypeError
deriving DecidableEq, Repr

/-- Exception-aware issues of one section: a dict section whose `type`
value is an array or object raises `TypeError` before emitting anything;
otherwise the section emits exactly the issues of `sectionIssues` (none
of whose remaining checks can raise - the second membership test on line
228 reuses the same, now known hashable, value). -/
def sectionIssuesE (si : Nat) (sec : Json) :
    Except SchemaTypeError (List ValidationIssue) :=
  match sec with
  | .obj sm =>
      if stypeUnhashable (jget sm "type") then .error .unhashableType
      else .ok (sectionIssues si sec)
  | _ => .ok (sectionIssues si sec)

/-- Exception-aware section loop: the first raising section aborts the
whole walk, discarding every issue collected so far. -/
def sectionLoopE : Nat → List Json → Except SchemaTypeError (List ValidationIssue)
  | _, [] => .ok []
  | si, sec :: rest =>
      match sectionIssuesE si sec with
      | .error e => .error e
      | .ok a =>
          match sectionLoopE (si + 1) rest with
          | .error e => .error e
          | .ok b => .ok (a ++ b)

/-- Exception-aware `_validate_schema`: identical to `validateSchema`
except that the `TypeError` raised on an unhashable section `type`
propagates instead of being smoothed into a warning. -/
def validateSchemaE (data : Json) : Except SchemaTypeError (List ValidationIssue) :=
  match data with
  | .obj d =>
      (match jget d "sections" with
       | some (.arr xs) =>
           (match sectionLoopE 0 xs with
            | .error e => .error e
            | .ok issues => .ok (metaIssues d ++ issues))
       | _ => .ok (metaIssues d
           ++ [⟨"error", "sections 必须是数组", "sections", none, none, none⟩]))
  | _ => .ok [⟨"error", "顶层必须是 JSON 对象（\x7b...\x7d）", "", none, none, none⟩]

/-- The diagnostic of the generic-exception branch of
`validate_json_and_latex` (`except Exception`, validator.py lines 32-34),
reached when `json.loads` raises `RecursionError` on deeply nested input:
severity error, no line, no column.  The rendered exception text varies
with the crash site; it is modelled by this representative constant,
which no claim observes. -/
def recursionIssue : ValidationIssue :=
  ⟨"error", "JSON 解析异常：maximum recursion depth exceeded", "", none, none, none⟩

/-- Embedding of `validate_json_and_latex` with both exception paths
visible: the `except Exception` branch catches the parser
`RecursionError` (producing one error diagnostic with null line and
column), while a `TypeError` raised by the schema walk is NOT caught (the
`try` wraps only `json.loads`) and propagates to the caller, so no
diagnostics are returned at all; `rlimit` is the runtime recursion limit
of the interpreter. -/
def validate_json_and_latexFull (rlimit : Nat) (raw : String) :
    Except SchemaTypeError (Option Json × List ValidationIssue) :=
  if raw = "" then .ok (none, [])
  else
    let issues := findSuspiciousJsonEscapes raw
    match pyJsonLoadsCore (some rlimit) raw with
    | .error (.decode e) => .ok (none, issues ++ [jsonDecodeIssue raw e])
    | .error .recursion => .ok (none, issues ++ [recursionIssue])
    | .ok data =>
        match validateSchemaE data with
        | .error exc => .error exc
        | .ok schemaIssues =>
            .ok (some data, issues ++ (schemaIssues ++ validateAllStrings data))

/-! ## Helper lemmas -/

/-- Membership in a conditional singleton list pins down the element. -/
theorem mem_ite_singleton {w iss : ValidationIssue} {c : Prop} [Decidable c]
    (h : w ∈ (if c then [iss] else [])) : w = iss := by
  split at h
  · simpa using h
  · simp at h

/-- Every warning produced by the escape scanner has severity `warning`. -/
theorem scanAux_all_warning (l : List Char) :
    ∀ (st : ScanState), ∀ w ∈ scanAux st l, w.severity = "warning" := by
  induction l with
  | nil => intro st w hw; simp [scanAux] at hw
  | cons c rest ih =>
    intro st w hw
    cases rest with
    | nil => simp [scanAux] at hw
    | cons c2 r2 =>
      rw [scanAux] at hw
      rcases List.mem_append.1 hw with hw | hw
      · rw [mem_ite_singleton hw]; rfl
      · exact ih (scanStep st c) w hw

/-- When a section does not raise, its exception-aware issues coincide
with the total model. -/
theorem sectionIssuesE_ok (si : Nat) (sec : Json) (issues : List ValidationIssue)
    (h : sectionIssuesE si sec = .ok issues) : issues = sectionIssues si sec := by
  cases sec with
  | obj sm =>
    unfold sectionIssuesE at h
    dsimp only at h
    by_cases hu : stypeUnhashable (jget sm "type") = true
    · rw [if_pos hu] at h
      exact Except.noConfusion h
    · rw [if_neg hu] at h
      simp only [Except.ok.injEq] at h
      exact h.symm
  | null =>
    simp only [sectionIssuesE, Except.ok.injEq] at h
    exact h.symm
  | bool b =>
    simp only [sectionIssuesE, Except.ok.injEq] at h
    exact h.symm
  | num a b =>
    simp only [sectionIssuesE, Except.ok.injEq] at h
    exact h.symm
  | str t =>
    simp only [sectionIssuesE, Except.ok.injEq] at h
    exact h.symm
  | arr xs =>
    simp only [sectionIssuesE, Except.ok.injEq] at h
    exact h.symm

/-- When the section loop does not raise, it emits the issues of the
total model. -/
theorem sectionLoopE_ok :
    ∀ (xs : List Json) (si : Nat) (issues : List ValidationIssue),
      sectionLoopE si xs = .ok issues → issues = sectionLoop si xs := by
  intro xs
  induction xs with
  | nil =>
    intro si issues h
    simp only [sectionLoopE, Except.ok.injEq] at h
    rw [← h]
    rfl
  | cons sec rest ih =>
    intro si issues h
    rw [sectionLoopE] at h
    cases hsec : sectionIssuesE si sec with
    | error e => simp [hsec] at h
    | ok a =>
      cases hrest : sectionLoopE (si + 1) rest with
      | error e => simp [hsec, hrest] at h
      | ok b =>
        simp only [hsec, hrest, Except.ok.injEq] at h
        rw [sectionLoop, ← h, sectionIssuesE_ok si sec a hsec, ih (si + 1) b hrest]

/-- When the schema walk does not raise, it emits the issues of the total
model `validateSchema`. -/
theorem validateSchemaE_ok (data : Json) (issues : List ValidationIssue)
    (h : validateSchemaE data = .ok issues) : issues = validateSchema data := by
  cases data with
  | obj d =>
    unfold validateSchemaE at h
    unfold validateSchema sectionsIssues
    cases hsec : jget d "sections" with
    | none =>
      simp only [hsec, Except.ok.injEq] at h
      simp only [hsec]
      rw [← h]
    | some v =>
      cases v with
      | arr xs =>
        simp only [hsec] at h
        cases hloop : sectionLoopE 0 xs with
        | error e => simp [hloop] at h
        | ok l =>
          simp only [hloop, Except.ok.injEq] at h
          simp only [hsec]
          rw [← h, sectionLoopE_ok xs 0 l hloop]
      | null =>
        simp only [hsec, Except.ok.injEq] at h
        simp only [hsec]
        rw [← h]
      | bool b =>
        simp only [hsec, Except.ok.injEq] at h
        simp only [hsec]
        rw [← h]
      | num a b =>
        simp only [hsec, Except.ok.injEq] at h
        simp only [hsec]
        rw [← h]
      | str t =>
        simp only [hsec, Except.ok.injEq] at h
        simp only [hsec]
        rw [← h]
      | obj kvs =>
        simp only [hsec, Except.ok.injEq] at h
        simp only [hsec]
        rw [← h]
  | null =>
    simp only [validateSchemaE, Except.ok.injEq] at h
    rw [← h]
    rfl
  | bool b =>
    simp only [validateSchemaE, Except.ok.injEq] at h
    rw [← h]
    rfl
  | num a b =>
    simp only [validateSchemaE, Except.ok.injEq] at h
    rw [← h]
    rfl
  | str t =>
    simp only [validateSchemaE, Except.ok.injEq] at h
    rw [← h]
    rfl
  | arr xs =>
    simp only [validateSchemaE, Except.ok.injEq] at h
    rw [← h]
    rfl

/-! ## C2 -/

/-- C2: `validate` is deterministic — two runs on equal input texts return
the same tree (or absence of one) and diagnostic lists equal element by
element in content and order. -/
theorem c2_validate_deterministic (t1 t2 : String) (h : t1 = t2) :
    (validate_json_and_latex t1).1 = (validate_json_and_latex t2).1 ∧
      List.Forall₂ (fun a b => a = b)
        (validate_json_and_latex t1).2 (validate_json_and_latex t2).2 := by
  subst h
  exact ⟨rfl, List.forall₂_same.2 (fun x _ => rfl)⟩

/-- Witness for C2 at a concrete input. -/
theorem c2_witness :
    (validate_json_and_latex "[1]").1 = (validate_json_and_latex "[1]").1 ∧
      List.Forall₂ (fun a b => a = b)
        (validate_json_and_latex "[1]").2 (validate_json_and_latex "[1]").2 :=
  c2_validate_deterministic "[1]" "[1]" rfl

/-! ## C6 -/

/-- C6: the math stripper removes unescaped `$$...$$`, then unescaped
`$...$`, then `\(...\)`, then `\[...\]`, non-overlapping and non-greedy
(`"$a$b$c$"` keeps the middle `b`), spans may contain newlines, and
stripping `"a $x+1$ b"` yields `"a  b"`; the `$$` pass running first is
visible on `"$$\n$$"`, which strips to `""` rather than to `"\n"`. -/
theorem c6_strip_math_segments :
    stripMathSegments "a $x+1$ b" = "a  b" ∧
    stripMathSegments "$$a\nb$$" = "" ∧
    stripMathSegments "$$\n$$" = "" ∧
    stripMathSegments "$a$b$c$" = "b" ∧
    stripMathSegments "\\(x\\) y \\[z\\]" = " y " ∧
    stripMathSegments "a\\$b" = "a\\$b" :=
  ⟨rfl, rfl, rfl, rfl, rfl, rfl⟩

/-! ## C5 -/

/-- Counterexample for C5: with two environments left open, the code
reports the innermost unclosed environment (`b`) first, not last as the
claim states. -/
theorem c5_counterexample :
    checkEnvBalance "\\begin{a}\\begin{b}" "content" =
      [unclosedEnvIssue "content" "b", unclosedEnvIssue "content" "a"] ∧
    [unclosedEnvIssue "content" "b", unclosedEnvIssue "content" "a"] ≠
      [unclosedEnvIssue "content" "a", unclosedEnvIssue "content" "b"] :=
  ⟨rfl, by decide⟩

/-- C5 (amended): begin/end tokens are replayed against a stack — balanced
nesting yields no diagnostics, a mismatched pair yields exactly one warning
naming both environments, and environments left open are reported
innermost-unclosed FIRST. -/
theorem c5_env_balance_amended (path : String) :
    checkEnvBalance "\\begin{a}\\begin{b}\\end{b}\\end{a}" path = [] ∧
    checkEnvBalance "\\begin{a}\\end{b}" path = [mismatchEnvIssue path "a" "b"] ∧
    checkEnvBalance "\\end{x}" path = [endNoBeginIssue path "x"] ∧
    checkEnvBalance "\\begin{a}\\begin{b}" path =
      [unclosedEnvIssue path "b", unclosedEnvIssue path "a"] :=
  ⟨rfl, rfl, rfl, rfl⟩

/-! ## C7 -/

/-- Counterexample for C7: when a `l.<digits>` token follows the bang
line, the extractor appends `（l.N）` to the message, so the message is not
the trimmed error text alone. -/
theorem c7_counterexample :
    extract_first_latex_error "! Oops\nl.5" none =
      some ⟨"error", "Oops（l.5）", "LaTeX", none, none, none⟩ ∧
    ("Oops（l.5）" : String) ≠ "Oops" :=
  ⟨rfl, by decide⟩

/-- C7 (amended): with no line whose first non-space character is `!` the
extractor returns nothing; otherwise it returns exactly one error
diagnostic with path `"LaTeX"` whose message is the text of the first such line
after the `!`, trimmed, with `（l.N）` appended when a `l.<digits>` token
occurs within the following 20 lines. -/
theorem c7_extractor_amended (logText : String) (tex : Option String) :
    ((pySplitlines logText).findIdx? (fun l => pyStartsWith (pyLstrip l) "!") = none →
      extract_first_latex_error logText tex = none) ∧
    (∀ i, (pySplitlines logText).findIdx? (fun l => pyStartsWith (pyLstrip l) "!") = some i →
      ∃ issue, extract_first_latex_error logText tex = some issue ∧
        issue.severity = "error" ∧ issue.path = "LaTeX" ∧
        issue.message =
          (let el := pyLstrip ((pySplitlines logText).getD i "")
           (if pyStartsWith el "!" then pyStrip (el.drop 1) else pyStrip el) ++
             (match ((pySplitlines logText).drop i).take 20
                 |>.findSome? (fun l => reLSearch l.data) with
              | some n => "（l." ++ Nat.repr n ++ "）"
              | none => ""))) := by
  constructor
  · intro h
    unfold extract_first_latex_error
    dsimp only
    rw [h]
  · intro i h
    unfold extract_first_latex_error
    dsimp only
    rw [h]
    exact ⟨_, rfl, rfl, rfl, rfl⟩

/-- Witness for C7 at concrete inputs. -/
theorem c7_witness :
    extract_first_latex_error "all fine" none = none :=
  (c7_extractor_amended "all fine" none).1 rfl

/-! ## C1 -/

/-- Counterexample for C1: the syntactically invalid text `"\frz`
(an unterminated string holding a suspicious escape) produces TWO
diagnostics — the escape-scanner warning and the decode error — not
exactly one; and on deeply nested invalid input (modelled by recursion
limit 1 on `[[[`) the single diagnostic of the generic-exception branch
has NULL line and column. -/
theorem c1_counterexample :
    (pyJsonLoads "\"\\frz" = .error ⟨"Unterminated string starting at", 0⟩ ∧
     (validate_json_and_latex "\"\\frz").2.length = 2 ∧
     (validate_json_and_latex "\"\\frz").2.countP (fun i => i.severity == "error") = 1) ∧
    (pyJsonLoadsCore (some 1) "[[[" = .error .recursion ∧
     validate_json_and_latexFull 1 "[[[" = .ok (none, [recursionIssue]) ∧
     recursionIssue.line = none ∧ recursionIssue.col = none) :=
  ⟨⟨rfl, rfl, rfl⟩, ⟨rfl, rfl, rfl, rfl⟩⟩

/-- C1 (amended): for every non-empty text on which `json.loads` fails,
`validate` returns an absent tree and the escape-scanner warnings (each
of severity `warning`) followed by exactly one error diagnostic, and
stages 3-5 contribute nothing; the error diagnostic has non-null line and
column when the failure is a located decode error, and null line and
column when `json.loads` raises through the generic-exception branch
(`RecursionError` on nesting beyond the recursion limit). -/
theorem c1_invalid_json_amended (rlimit : Nat) (raw : String) (hne : raw ≠ "") :
    (∀ e, pyJsonLoadsCore (some rlimit) raw = .error (.decode e) →
      validate_json_and_latexFull rlimit raw =
        .ok (none, findSuspiciousJsonEscapes raw ++ [jsonDecodeIssue raw e]) ∧
      (jsonDecodeIssue raw e).severity = "error" ∧
      (jsonDecodeIssue raw e).line.isSome = true ∧
      (jsonDecodeIssue raw e).col.isSome = true) ∧
    (pyJsonLoadsCore (some rlimit) raw = .error .recursion →
      validate_json_and_latexFull rlimit raw =
        .ok (none, findSuspiciousJsonEscapes raw ++ [recursionIssue]) ∧
      recursionIssue.severity = "error" ∧ recursionIssue.line = none ∧
      recursionIssue.col = none) ∧
    (∀ w ∈ findSuspiciousJsonEscapes raw, w.severity = "warning") := by
  refine ⟨?_, ?_, scanAux_all_warning raw.data scanInit⟩
  · intro e hp
    refine ⟨?_, rfl, rfl, rfl⟩
    unfold validate_json_and_latexFull
    rw [if_neg hne, hp]
  · intro hp
    refine ⟨?_, rfl, rfl, rfl⟩
    unfold validate_json_and_latexFull
    rw [if_neg hne, hp]

/-- Witness for C1 at concrete invalid inputs, one per failure branch. -/
theorem c1_witness :
    (validate_json_and_latexFull 10 "[" =
      .ok (none,
        findSuspiciousJsonEscapes "[" ++ [jsonDecodeIssue "[" ⟨"Expecting value", 1⟩]) ∧
     (jsonDecodeIssue "[" ⟨"Expecting value", 1⟩).line.isSome = true) ∧
    validate_json_and_latexFull 1 "[[[" =
      .ok (none, findSuspiciousJsonEscapes "[[[" ++ [recursionIssue]) := by
  constructor
  · exact ⟨((c1_invalid_json_amended 10 "[" (by decide)).1 ⟨"Expecting value", 1⟩ rfl).1,
      ((c1_invalid_json_amended 10 "[" (by decide)).1 ⟨"Expecting value", 1⟩ rfl).2.2.1⟩
  · exact ((c1_invalid_json_amended 1 "[[[" (by decide)).2.1 rfl).1

/-! ## C8 -/

/-- Counterexample for C8: on syntactically valid JSON whose section
`type` is an object, `stype not in allowed_types` raises `TypeError`
(sets need hashable operands), so the pipeline aborts after a successful
parse and the string leaf `"$"` is never markup-validated. -/
theorem c8_counterexample :
    pyJsonLoads "\x7b\"sections\":[\x7b\"type\":\x7b\x7d,\"questions\":[\x7b\"content\":\"$\"\x7d]\x7d]\x7d" =
      .ok (.obj [("sections", .arr [.obj [("type", .obj []),
        ("questions", .arr [.obj [("content", .str "$")]])]])]) ∧
    validate_json_and_latexFull 1000
        "\x7b\"sections\":[\x7b\"type\":\x7b\x7d,\"questions\":[\x7b\"content\":\"$\"\x7d]\x7d]\x7d" =
      .error .unhashableType :=
  ⟨rfl, rfl⟩

/-- C8 (amended): whenever the structural parse succeeds and the schema
walk completes without raising (no section object carries an array/object
`type` value), markup validation runs over every string leaf of the tree
regardless of schema violations — concretely, even when the top level is
not an object (a schema error), the string leaf at path `[0]` is still
markup-validated. -/
theorem c8_no_short_circuit_amended (rlimit : Nat) (raw : String) (data : Json)
    (schemaIssues : List ValidationIssue)
    (hp : pyJsonLoadsCore (some rlimit) raw = .ok data)
    (hs : validateSchemaE data = .ok schemaIssues) :
    (validate_json_and_latexFull rlimit raw =
      .ok (some data,
        findSuspiciousJsonEscapes raw ++
          (schemaIssues ++
            (iterStrings data).flatMap (fun ps => validateLatexString ps.2 ps.1)))) ∧
    schemaIssues = validateSchema data ∧
    validate_json_and_latexFull 1000 "[\"x_\"]" =
      .ok (some (.arr [.str "x_"]),
        [⟨"error", "顶层必须是 JSON 对象（\x7b...\x7d）", "", none, none, none⟩,
         ⟨"warning", "检测到未转义的 _（下标符）", "[0]", none, none, none⟩]) := by
  refine ⟨?_, validateSchemaE_ok data schemaIssues hs, rfl⟩
  have hne : raw ≠ "" := by
    intro hraw
    subst hraw
    have hempty : pyJsonLoadsCore (some rlimit) "" =
        .error (.decode ⟨"Expecting value", 0⟩) := rfl
    rw [hempty] at hp
    exact Except.noConfusion hp
  unfold validate_json_and_latexFull
  rw [if_neg hne, hp]
  dsimp only
  rw [hs]
  rfl

/-- Witness for C8 at a concrete parseable, non-raising input. -/
theorem c8_witness :
    validate_json_and_latexFull 5 "[1]" =
      .ok (some (Json.arr [Json.num 1 0]),
        findSuspiciousJsonEscapes "[1]" ++
          ([⟨"error", "顶层必须是 JSON 对象（\x7b...\x7d）", "", none, none, none⟩] ++
            (iterStrings (Json.arr [Json.num 1 0])).flatMap
              (fun ps => validateLatexString ps.2 ps.1))) :=
  (c8_no_short_circuit_amended 5 "[1]" (Json.arr [Json.num 1 0])
    [⟨"error", "顶层必须是 JSON 对象（\x7b...\x7d）", "", none, none, none⟩] rfl rfl).1

/-! ## C10 -/

/-- C10: markup validation is skipped exactly for paths ending in `.type`
or `.id`; a bare top-level key path such as `"type"` or `"id"` is not
skipped and runs the full battery — in particular the string `"$"` under
path `"type"` still gets the math-parity error. -/
theorem c10_skip_rule :
    (∀ s path, (pyEndsWith path ".type" = true ∨ pyEndsWith path ".id" = true) →
      validateLatexString s path = []) ∧
    (∀ s, validateLatexString s "type" = latexChecks s "type") ∧
    (∀ s, validateLatexString s "id" = latexChecks s "id") ∧
    validateLatexString "$" "type" = [⟨"error", parityMsg, "type", none, none, none⟩] := by
  refine ⟨?_, ?_, ?_, rfl⟩
  · intro s path h
    unfold validateLatexString
    rcases h with h | h <;> simp [h]
  · intro s; rfl
  · intro s; rfl

/-- Witness for C10: a path with the `.type` suffix is skipped. -/
theorem c10_witness : validateLatexString "$ unbalanced" "sections[0].type" = [] :=
  c10_skip_rule.1 "$ unbalanced" "sections[0].type" (Or.inl (by decide))

/-! ## C3 -/

/-- Shifting the position index by one corresponds to advancing the
scanner by one character. -/
theorem emitAtFrom_succ (st : ScanState) (c : Char) (l : List Char) (i : Nat) :
    emitAtFrom st (c :: l) (i + 1) = emitAtFrom (scanStep st c) l i := rfl

/-- Index-shift for the emitted warning. -/
theorem warnAtFrom_succ (st : ScanState) (c : Char) (l : List Char) (i : Nat) :
    warnAtFrom st (c :: l) (i + 1) = warnAtFrom (scanStep st c) l i := rfl

/-- The position-indexed emission test at the head of the list is the
emission test of the loop. -/
theorem emitAtFrom_zero (st : ScanState) (c c2 : Char) (r2 : List Char) :
    emitAtFrom st (c :: c2 :: r2) 0 = scanEmit st c c2 r2.head? := by
  cases r2 <;> rfl

/-- The warning at the head of the list is the warning of the loop. -/
theorem warnAtFrom_zero (st : ScanState) (c c2 : Char) (r2 : List Char) :
    warnAtFrom st (c :: c2 :: r2) 0 =
      escWarnIssue st.line (st.col + 1) c2 (r2.head?.getD 'A') := by
  cases r2 <;> rfl

/-- Peeling the first index off a filtered-and-mapped `range`. -/
theorem filterMapRangeShift (p : Nat → Bool) (g : Nat → ValidationIssue) (n : Nat) :
    ((List.range (n + 1)).filter p).map g =
      (if p 0 then [g 0] else []) ++
        ((List.range n).filter (fun i => p (i + 1))).map (fun i => g (i + 1)) := by
  rw [List.range_succ_eq_map, List.filter_cons]
  by_cases h : p 0
  · simp [h, List.filter_map, List.map_map, Function.comp, Nat.succ_eq_add_one]
    rfl
  · simp [h, List.filter_map, List.map_map, Function.comp, Nat.succ_eq_add_one]
    rfl

/-- The scanner loop emits exactly at the positions satisfying the
position-indexed emission test, in position order, with the warning
determined by the state reached at that position. -/
theorem scanAux_characterization (l : List Char) : ∀ st : ScanState,
    scanAux st l =
      ((List.range (l.length - 1)).filter (emitAtFrom st l)).map (warnAtFrom st l) := by
  induction l with
  | nil => intro st; rfl
  | cons c rest ih =>
    intro st
    cases rest with
    | nil => rfl
    | cons c2 r2 =>
      have hlen : (c :: c2 :: r2).length - 1 = ((c2 :: r2).length - 1) + 1 := by
        simp
      rw [scanAux, ih (scanStep st c), hlen, filterMapRangeShift,
        emitAtFrom_zero, warnAtFrom_zero]
      have he : (fun i => emitAtFrom st (c :: c2 :: r2) (i + 1))
          = emitAtFrom (scanStep st c) (c2 :: r2) :=
        funext (fun i => emitAtFrom_succ st c (c2 :: r2) i)
      have hw : (fun i => warnAtFrom st (c :: c2 :: r2) (i + 1))
          = warnAtFrom (scanStep st c) (c2 :: r2) :=
        funext (fun i => warnAtFrom_succ st c (c2 :: r2) i)
      rw [he, hw]

/-- C3: the escape scanner emits a warning exactly at those positions
where, in the inside-string non-escaped state of the scanner, a backslash is
followed by one of `b f n r t` and then a further alphabetic character
(so never for a bare two-character escape, witnessed by `"\n"`), and its
warnings are included in the output of `validate` even when the structural
parse of the text fails. -/
theorem c3_escape_scanner :
    (∀ raw : String,
        findSuspiciousJsonEscapes raw =
          ((List.range (raw.data.length - 1)).filter (emitAtFrom scanInit raw.data)).map
            (warnAtFrom scanInit raw.data)) ∧
    (∀ (raw : String) (e : JsonErr), raw ≠ "" → pyJsonLoads raw = .error e →
        (validate_json_and_latex raw).2 =
          findSuspiciousJsonEscapes raw ++ [jsonDecodeIssue raw e]) ∧
    findSuspiciousJsonEscapes "\"\\n\"" = [] := by
  refine ⟨fun raw => scanAux_characterization raw.data scanInit, ?_, rfl⟩
  intro raw e hne hp
  unfold validate_json_and_latex
  rw [if_neg hne, hp]

/-- Witness for C3: the single scanner warning on `"\frz` is kept in the
output of `validate` although the parse fails. -/
theorem c3_witness :
    (validate_json_and_latex "\"\\frz").2 =
      findSuspiciousJsonEscapes "\"\\frz"
        ++ [jsonDecodeIssue "\"\\frz" ⟨"Unterminated string starting at", 0⟩] :=
  c3_escape_scanner.2.1 "\"\\frz" ⟨"Unterminated string starting at", 0⟩ (by decide) rfl

/-! ## C4 -/

/-- The control-character error message can never coincide with the
math-parity message, whatever the sample of offending characters is. -/
theorem ctrlMsg_ne_parity (r : String) : ("检测到控制字符 " ++ r) ≠ parityMsg := by
  intro h
  have h1 : ("检测到控制字符 " ++ r).data.take 4 = ['检', '测', '到', '控'] := rfl
  rw [h] at h1
  exact absurd h1 (by decide)

/-- Every diagnostic produced by the environment replay has severity
`warning`. -/
theorem envReplay_all_warning (path : String) :
    ∀ (ts : List (Nat × Bool × String)) (stack : List String),
      ∀ w ∈ envReplay path stack ts, w.severity = "warning" := by
  intro ts
  induction ts with
  | nil =>
    intro stack w hw
    rw [envReplay] at hw
    obtain ⟨name, _, hn⟩ := List.mem_map.1 hw
    rw [← hn]
    rfl
  | cons t rest ih =>
    intro stack w hw
    obtain ⟨pos, kind, name⟩ := t
    cases kind with
    | true =>
      rw [envReplay] at hw
      exact ih (name :: stack) w hw
    | false =>
      cases stack with
      | nil =>
        rw [envReplay] at hw
        rcases List.mem_cons.1 hw with hw | hw
        · rw [hw]; rfl
        · exact ih [] w hw
      | cons top st =>
        rw [envReplay] at hw
        rcases List.mem_append.1 hw with hw | hw
        · rw [mem_ite_singleton hw]; rfl
        · exact ih st w hw

/-- Every diagnostic of the environment-balance check has severity
`warning`. -/
theorem checkEnvBalance_all_warning (s path : String) :
    ∀ w ∈ checkEnvBalance s path, w.severity = "warning" := by
  intro w hw
  unfold checkEnvBalance at hw
  dsimp only at hw
  split at hw
  · simp at hw
  · exact envReplay_all_warning path _ [] w hw

/-- A list of warnings contains no parity error. -/
theorem countP_parity_zero_of_warning (l : List ValidationIssue)
    (h : ∀ w ∈ l, w.severity = "warning") :
    l.countP (fun i => i.severity == "error" && i.message == parityMsg) = 0 := by
  rw [List.countP_eq_zero]
  intro a ha
  rw [h a ha]
  simp

/-- `countP` over a conditional empty-or-singleton block. -/
theorem countP_ite_nil_single (c : Prop) [Decidable c] (iss : ValidationIssue)
    (p : ValidationIssue → Bool) :
    (if c then ([] : List ValidationIssue) else [iss]).countP p =
      if c then 0 else (if p iss then 1 else 0) := by
  split <;> simp [List.countP_cons]

/-- `countP` over a conditional singleton-or-empty block. -/
theorem countP_ite_single_nil (c : Prop) [Decidable c] (iss : ValidationIssue)
    (p : ValidationIssue → Bool) :
    (if c then [iss] else ([] : List ValidationIssue)).countP p =
      if c then (if p iss then 1 else 0) else 0 := by
  split <;> simp [List.countP_cons]

/-- C4: on a non-skipped string, the math-delimiter-parity error appears
exactly once when the number of unescaped `$` is odd and never when it is
even. -/
theorem c4_dollar_parity (s path : String)
    (h1 : pyEndsWith path ".type" = false) (h2 : pyEndsWith path ".id" = false) :
    (validateLatexString s path).countP
        (fun i => i.severity == "error" && i.message == parityMsg) =
      if countUnescapedDollar s.data % 2 = 1 then 1 else 0 := by
  have hc : (pyEndsWith path ".type" || pyEndsWith path ".id") = false := by
    rw [h1, h2]
    rfl
  rw [validateLatexString, hc, if_neg Bool.false_ne_true]
  have hspec : ∀ nonMath : List Char, ∀ w ∈ specialChars.flatMap (fun cd =>
      if hasUnescaped cd.1 none nonMath then
        [(⟨"warning", "检测到未转义的 " ++ String.singleton cd.1 ++ "（" ++ cd.2 ++ "）",
           path, none, none, none⟩ : ValidationIssue)]
      else ([] : List ValidationIssue)), w.severity = "warning" := by
    intro nonMath w hw
    simp only [List.mem_flatMap] at hw
    obtain ⟨cd, _, hw⟩ := hw
    rw [mem_ite_singleton hw]
  rw [latexChecks]
  dsimp only
  simp only [List.countP_append, countP_ite_nil_single, countP_ite_single_nil]
  rw [countP_parity_zero_of_warning _ (checkEnvBalance_all_warning s path),
    countP_parity_zero_of_warning _ (hspec _)]
  have hctrlmsg : ∀ r : String, (("检测到控制字符 " ++ r) == parityMsg) = false :=
    fun r => beq_eq_false_iff_ne.2 (ctrlMsg_ne_parity r)
  have hb1 : ("检测到 \\n 字符串，请移除" == parityMsg) = false := by decide
  have hb2 : ("检测到 $$...$$（部分模板/环境不友好，建议改用 $...$ 或 \\\\[...\\\\]）" == parityMsg) = false := by
    decide
  have hb3 : (("检测到 " ++ lbraceStr ++ " " ++ rbraceStr ++ " 数量不一致（可能存在括号未闭合）")
      == parityMsg) = false := by decide
  have hb4 : ("检测到 \\left 与 \\right 数量不一致" == parityMsg) = false := by decide
  have hb5 : ("error" == "error" : Bool) = true := by decide
  have hb6 : ("warning" == "error" : Bool) = false := by decide
  have hb7 : (parityMsg == parityMsg) = true := by decide
  simp only [hctrlmsg, hb1, hb2, hb3, hb4, hb5, hb6, hb7, Bool.and_false, Bool.true_and,
    Bool.false_and, Bool.and_true, Bool.false_eq_true, if_false, ite_self,
    Nat.zero_add, Nat.add_zero]
  simp

/-- Witness for C4 at a concrete non-skipped string with one `$`. -/
theorem c4_witness :
    (validateLatexString "$" "content").countP
        (fun i => i.severity == "error" && i.message == parityMsg) =
      if countUnescapedDollar "$".data % 2 = 1 then 1 else 0 :=
  c4_dollar_parity "$" "content" rfl rfl

/-! ## C9 -/

